import Mathlib

/-!
Shallow embedding of the credit-card recommendation engine
(`src/data/credit_cards.py` and `src/utils/calculator.py`).

Modelling conventions:
* Monetary amounts and reward rates are rationals (`ℚ`); the Python code uses
  ints and floats, but every claim under study is an exact arithmetic identity
  that the code computes literally (e.g. `net_value = gross - fee`), so the
  identities are arithmetic-representation independent.
* The five spend categories are a closed enumeration (the spec fixes the
  profile's category set to exactly these five); dictionaries keyed by
  category become total functions on `SpendCategory`, and the category
  multiplier dictionary (whose keys are a subset of the non-general
  categories) becomes an `Option ℚ`-valued function.
* `milestone_benefits` is an association list of (threshold, points) pairs in
  catalog insertion order; the Python `int(threshold)` coercion of string keys
  is pre-applied (thresholds are `ℕ`).
* Formatted display strings (milestone achievement descriptions, the
  `why_recommended` sentence fragments) are modelled by the data they are
  formatted from: a `Milestone` record (threshold, points, rupee value) for
  each achievement string, and a `Reason` inductive for each recommendation
  phrase. One Python string corresponds to exactly one such value.
* Python's `list.sort(key=..., reverse=True)` is a stable descending sort; it
  is modelled by `List.insertionSort` with the relation
  `b.net_value ≤ a.net_value`, which realises exactly the stable descending
  sort (proved below: sorted, a permutation, and tie order preserved).
-/

/-- The five user spend categories fixed by the profile shape. -/
inductive SpendCategory where
  | general
  | travel
  | dining
  | online
  | utilities
  deriving DecidableEq, Repr

/-- Canonical iteration order of the categories, matching the profile
dictionary's insertion order (general, travel, dining, online, utilities). -/
def SpendCategory.all : List SpendCategory :=
  [.general, .travel, .dining, .online, .utilities]

instance : Fintype SpendCategory where
  elems := ⟨{SpendCategory.general, .travel, .dining, .online, .utilities}, by decide⟩
  complete := by intro c; cases c <;> decide

/-- A card record of `data/credit_cards.py`. -/
structure Card where
  card_name : String
  bank : String
  annual_fee : ℕ
  fee_waiver_threshold : ℕ
  min_salary_req : ℕ
  base_reward_rate : ℚ
  category_multipliers : SpendCategory → Option ℚ
  lounge_access : String
  lounge_visits_per_quarter : ℕ
  milestone_benefits : List (ℕ × ℚ)
  fuel_surcharge_waiver : Bool
  card_type : String
  joining_fee : ℕ
  welcome_benefit : ℕ
  description : String

/-- `POINT_VALUATION`: bank → rupee-per-point table. -/
def POINT_VALUATION : List (String × ℚ) :=
  [("HDFC", 1/2), ("SBI", 1/4), ("Axis", 1/2), ("ICICI", 1/4),
   ("Amex", 1/2), ("RBL", 1/4), ("IndusInd", 1/2)]

/-- `POINT_VALUATION.get(bank, 0.25)`. -/
def pointValue (bank : String) : ℚ :=
  (POINT_VALUATION.lookup bank).getD (1/4)

/-- `calculate_annual_spend`: each monthly spend times 12. -/
def calculate_annual_spend (monthly_spends : SpendCategory → ℕ) : SpendCategory → ℕ :=
  fun category => monthly_spends category * 12

/-- `calculate_total_spend`: sum of the spends across all categories. -/
def calculate_total_spend (spends : SpendCategory → ℕ) : ℕ :=
  (SpendCategory.all.map spends).sum

/-- `check_eligibility`: salary at least the card's minimum requirement. -/
def check_eligibility (card : Card) (monthly_salary : ℕ) : Bool :=
  decide (card.min_salary_req ≤ monthly_salary)

/-- `calculate_effective_fee`: 0 when the waiver threshold is 0 (lifetime
free), 0 when annual spend reaches the threshold, else the annual fee. -/
def calculate_effective_fee (card : Card) (annual_spend : ℕ) : ℕ :=
  if card.fee_waiver_threshold = 0 then
    0
  else if card.fee_waiver_threshold ≤ annual_spend then
    0
  else
    card.annual_fee

/-- The reward rate applied to a category in `calculate_base_rewards`:
base rate for "general", otherwise the category multiplier with fallback to
the base rate (`card["category_multipliers"].get(user_category, base)`). -/
def categoryRewardRate (card : Card) (category : SpendCategory) : ℚ :=
  if category = SpendCategory.general then
    card.base_reward_rate
  else
    (card.category_multipliers category).getD card.base_reward_rate

/-- `calculate_base_rewards`: per-category reward values (the
`category_rewards` dictionary, one entry per category) and their running
total accumulated in iteration order. -/
def calculate_base_rewards (card : Card) (annual_spends : SpendCategory → ℕ) :
    ℚ × (SpendCategory → ℚ) :=
  let category_rewards : SpendCategory → ℚ :=
    fun category => (annual_spends category : ℚ) * categoryRewardRate card category
  (SpendCategory.all.foldl (fun total category => total + category_rewards category) 0,
   category_rewards)

/-- One achieved milestone: the data of the formatted achievement string
(threshold, points, rupee value). -/
structure Milestone where
  threshold : ℕ
  points : ℚ
  value : ℚ
  deriving DecidableEq, Repr

/-- `calculate_milestone_benefits`: loop over the milestone table, and for
each threshold reached by the annual spend add `points × point_value` to the
total and append one achievement record. -/
def calculate_milestone_benefits (card : Card) (annual_spend : ℕ) :
    ℚ × List Milestone :=
  let point_value := pointValue card.bank
  card.milestone_benefits.foldl
    (fun acc tp =>
      if tp.1 ≤ annual_spend then
        (acc.1 + tp.2 * point_value,
         acc.2 ++ [⟨tp.1, tp.2, tp.2 * point_value⟩])
      else
        acc)
    (0, [])

/-- `LOUNGE_VALUE_PER_VISIT` (₹1,500 per visit). -/
def LOUNGE_VALUE_PER_VISIT : ℕ := 1500

/-- `calculate_lounge_value`: 0 unless lounge access is requested; 12 visits
a year for the unlimited sentinel (≥ 999), else 4 visits per quarterly
allowance, at ₹1,500 each. -/
def calculate_lounge_value (card : Card) (needs_lounge : Bool) : ℚ :=
  if !needs_lounge then
    0
  else if 999 ≤ card.lounge_visits_per_quarter then
    (12 * LOUNGE_VALUE_PER_VISIT : ℕ)
  else
    (card.lounge_visits_per_quarter * 4 * LOUNGE_VALUE_PER_VISIT : ℕ)

/-- One fragment of the `why_recommended` explanation, carrying the data the
corresponding Python sentence is formatted from. An empty fragment list
corresponds to the default "Basic rewards on all spends" text. -/
inductive Reason where
  | categoryRewards (rate : ℚ) (category : SpendCategory)
  | feeWaived (threshold : ℕ)
  | lifetimeFree
  | milestones (count : ℕ)
  | unlimitedLounge
  | loungeVisits (annualVisits : ℕ)
  deriving DecidableEq, Repr

/-- `max(category_rewards, key=category_rewards.get)`: the first category, in
dictionary iteration order, attaining the maximal reward value. -/
def bestCategory (f : SpendCategory → ℚ) : SpendCategory :=
  [SpendCategory.travel, .dining, .online, .utilities].foldl
    (fun best category => if f best < f category then category else best)
    SpendCategory.general

/-- The `breakdown` dictionary of an eligible valuation. -/
structure Breakdown where
  annual_fee : ℕ
  effective_fee : ℕ
  fee_waived : Bool
  total_rewards : ℚ
  category_rewards : SpendCategory → ℚ
  milestone_value : ℚ
  achieved_milestones : List Milestone
  lounge_value : ℚ
  welcome_value : ℚ
  gross_benefits : ℚ
  total_annual_spend : ℕ
  deriving DecidableEq

/-- The dictionary returned by `calculate_net_value`. Keys present only on
one of the two return paths are `Option`-valued: the ineligible return
carries a `reason` and an empty breakdown and omits every other analysis
field. -/
structure CardAnalysis where
  card_name : String
  bank : String
  card_type : Option String
  is_eligible : Bool
  net_value : ℚ
  effective_reward_rate : Option ℚ
  reason : Option String
  breakdown : Option Breakdown
  why_recommended : Option (List Reason)
  lounge_access : Option String
  description : Option String
  deriving DecidableEq

/-- The ineligibility reason string (thousands separators of the Python
format spec omitted). -/
def ineligibleReason (card : Card) : String :=
  "Requires minimum salary of ₹" ++ toString card.min_salary_req ++ "/month"

/-- `calculate_net_value`: the main valuation of one card for one profile. -/
def calculate_net_value (card : Card) (monthly_salary : ℕ)
    (monthly_spends : SpendCategory → ℕ) (needs_lounge : Bool)
    (is_first_year : Bool) : CardAnalysis :=
  let is_eligible := check_eligibility card monthly_salary
  if !is_eligible then
    { card_name := card.card_name
      bank := card.bank
      card_type := none
      is_eligible := false
      net_value := 0
      effective_reward_rate := none
      reason := some (ineligibleReason card)
      breakdown := none
      why_recommended := none
      lounge_access := none
      description := none }
  else
    let annual_spends := calculate_annual_spend monthly_spends
    let total_annual_spend := calculate_total_spend annual_spends
    let effective_fee := calculate_effective_fee card total_annual_spend
    let fee_waived := decide (effective_fee = 0) && decide (0 < card.annual_fee)
    let rewards := calculate_base_rewards card annual_spends
    let total_rewards := rewards.1
    let category_rewards := rewards.2
    let milestones := calculate_milestone_benefits card total_annual_spend
    let milestone_value := milestones.1
    let achieved_milestones := milestones.2
    let lounge_value := calculate_lounge_value card needs_lounge
    let welcome_value : ℚ := if is_first_year then (card.welcome_benefit : ℚ) else 0
    let gross_benefits := total_rewards + milestone_value + lounge_value + welcome_value
    let net_value := gross_benefits - (effective_fee : ℚ)
    let effective_reward_rate : ℚ :=
      if 0 < total_annual_spend then
        total_rewards / (total_annual_spend : ℚ) * 100
      else
        0
    let best_category := bestCategory category_rewards
    let reasons : List Reason :=
      (if 0 < category_rewards best_category then
        [Reason.categoryRewards
          ((card.category_multipliers best_category).getD card.base_reward_rate)
          best_category]
      else
        []) ++
      (if fee_waived then
        [Reason.feeWaived card.fee_waiver_threshold]
      else if card.annual_fee = 0 then
        [Reason.lifetimeFree]
      else
        []) ++
      (if achieved_milestones.isEmpty then
        []
      else
        [Reason.milestones achieved_milestones.length]) ++
      (if 0 < lounge_value then
        if 999 ≤ card.lounge_visits_per_quarter then
          [Reason.unlimitedLounge]
        else
          [Reason.loungeVisits (card.lounge_visits_per_quarter * 4)]
      else
        [])
    { card_name := card.card_name
      bank := card.bank
      card_type := some card.card_type
      is_eligible := true
      net_value := net_value
      effective_reward_rate := some effective_reward_rate
      reason := none
      breakdown := some
        { annual_fee := card.annual_fee
          effective_fee := effective_fee
          fee_waived := fee_waived
          total_rewards := total_rewards
          category_rewards := category_rewards
          milestone_value := milestone_value
          achieved_milestones := achieved_milestones
          lounge_value := lounge_value
          welcome_value := welcome_value
          gross_benefits := gross_benefits
          total_annual_spend := total_annual_spend }
      why_recommended := some reasons
      lounge_access := some card.lounge_access
      description := some card.description }

/-- The descending-net-value ordering used by `results.sort(key=..., reverse=True)`. -/
def rankRel (a b : CardAnalysis) : Prop :=
  b.net_value ≤ a.net_value

instance : DecidableRel rankRel :=
  fun a b => inferInstanceAs (Decidable (b.net_value ≤ a.net_value))

/-- One iteration of the `rank_cards` loop: `none` when the card is skipped
by a filter or ineligible, otherwise the analysis appended to `results`. -/
def rankCandidate (monthly_salary : ℕ) (monthly_spends : SpendCategory → ℕ)
    (needs_lounge lifetime_free_only is_first_year : Bool) (card : Card) :
    Option CardAnalysis :=
  if lifetime_free_only && decide (0 < card.annual_fee) then
    none
  else if needs_lounge && decide (card.lounge_visits_per_quarter = 0) then
    none
  else
    let analysis :=
      calculate_net_value card monthly_salary monthly_spends needs_lounge is_first_year
    if analysis.is_eligible then some analysis else none

/-- `rank_cards`: filter, valuate, drop ineligible, then stable-sort by net
value descending (Python's `list.sort` is stable; `insertionSort` with
`rankRel` is its stable descending realisation, as proved below). -/
def rank_cards (cards : List Card) (monthly_salary : ℕ)
    (monthly_spends : SpendCategory → ℕ)
    (needs_lounge lifetime_free_only is_first_year : Bool) : List CardAnalysis :=
  (cards.filterMap
      (rankCandidate monthly_salary monthly_spends needs_lounge lifetime_free_only
        is_first_year)).insertionSort rankRel

/-- HDFC Infinia (catalog entry 1). -/
def hdfcInfinia : Card where
  card_name := "HDFC Infinia"
  bank := "HDFC"
  annual_fee := 12500
  fee_waiver_threshold := 1000000
  min_salary_req := 300000
  base_reward_rate := 33/1000
  category_multipliers := fun category =>
    match category with
    | .general => none
    | .travel => some (5/100)
    | .dining => some (33/1000)
    | .online => some (33/1000)
    | .utilities => some (33/1000)
  lounge_access := "Unlimited domestic & international"
  lounge_visits_per_quarter := 999
  milestone_benefits := [(800000, 10000), (1500000, 25000)]
  fuel_surcharge_waiver := true
  card_type := "Super Premium"
  joining_fee := 12500
  welcome_benefit := 12500
  description := "India's most premium card with unmatched rewards and luxury benefits"

/-- HDFC Regalia Gold (catalog entry 2). -/
def hdfcRegaliaGold : Card where
  card_name := "HDFC Regalia Gold"
  bank := "HDFC"
  annual_fee := 2500
  fee_waiver_threshold := 300000
  min_salary_req := 60000
  base_reward_rate := 2/100
  category_multipliers := fun category =>
    match category with
    | .general => none
    | .travel => some (4/100)
    | .dining => some (2/100)
    | .online => some (2/100)
    | .utilities => some (2/100)
  lounge_access := "8 per year (domestic & international)"
  lounge_visits_per_quarter := 2
  milestone_benefits := [(500000, 5000)]
  fuel_surcharge_waiver := true
  card_type := "Premium"
  joining_fee := 2500
  welcome_benefit := 2500
  description := "Great all-rounder for mid-income professionals"

/-- HDFC Diners Black (catalog entry 3). -/
def hdfcDinersBlack : Card where
  card_name := "HDFC Diners Black"
  bank := "HDFC"
  annual_fee := 10000
  fee_waiver_threshold := 500000
  min_salary_req := 175000
  base_reward_rate := 33/1000
  category_multipliers := fun category =>
    match category with
    | .general => none
    | .travel => some (10/100)
    | .dining => some (10/100)
    | .online => some (33/1000)
    | .utilities => some (33/1000)
  lounge_access := "Unlimited via Diners Club network"
  lounge_visits_per_quarter := 999
  milestone_benefits := [(400000, 10000), (800000, 25000)]
  fuel_surcharge_waiver := true
  card_type := "Super Premium"
  joining_fee := 10000
  welcome_benefit := 10000
  description := "Best for dining and travel with 10x rewards on SmartBuy"

/-- SBI Cashback Card (catalog entry 4). -/
def sbiCashback : Card where
  card_name := "SBI Cashback Card"
  bank := "SBI"
  annual_fee := 999
  fee_waiver_threshold := 200000
  min_salary_req := 30000
  base_reward_rate := 1/100
  category_multipliers := fun category =>
    match category with
    | .general => none
    | .travel => some (1/100)
    | .dining => some (1/100)
    | .online => some (5/100)
    | .utilities => some (1/100)
  lounge_access := "4 per year (domestic)"
  lounge_visits_per_quarter := 1
  milestone_benefits := []
  fuel_surcharge_waiver := true
  card_type := "Regular"
  joining_fee := 999
  welcome_benefit := 0
  description := "Best for online shoppers with 5% cashback on online purchases"

/-- SBI SimplyCLICK (catalog entry 5). -/
def sbiSimplyClick : Card where
  card_name := "SBI SimplyCLICK"
  bank := "SBI"
  annual_fee := 499
  fee_waiver_threshold := 100000
  min_salary_req := 25000
  base_reward_rate := 125/10000
  category_multipliers := fun category =>
    match category with
    | .general => none
    | .travel => some (125/10000)
    | .dining => some (125/10000)
    | .online => some (25/1000)
    | .utilities => some (125/10000)
  lounge_access := "None"
  lounge_visits_per_quarter := 0
  milestone_benefits := [(100000, 2000), (200000, 2000)]
  fuel_surcharge_waiver := true
  card_type := "Entry Level"
  joining_fee := 499
  welcome_benefit := 500
  description := "Perfect entry-level card for online shopping enthusiasts"

/-- Axis Atlas (catalog entry 6). -/
def axisAtlas : Card where
  card_name := "Axis Atlas"
  bank := "Axis"
  annual_fee := 5000
  fee_waiver_threshold := 1500000
  min_salary_req := 125000
  base_reward_rate := 2/100
  category_multipliers := fun category =>
    match category with
    | .general => none
    | .travel => some (5/100)
    | .dining => some (2/100)
    | .online => some (2/100)
    | .utilities => some (2/100)
  lounge_access := "8 international + 8 domestic per year"
  lounge_visits_per_quarter := 4
  milestone_benefits := [(750000, 7500), (1500000, 12500)]
  fuel_surcharge_waiver := true
  card_type := "Travel Premium"
  joining_fee := 5000
  welcome_benefit := 5000
  description := "Best travel card for frequent flyers with EDGE miles"

/-- Axis Flipkart (catalog entry 7): stated fee 500 with waiver threshold 0. -/
def axisFlipkart : Card where
  card_name := "Axis Flipkart"
  bank := "Axis"
  annual_fee := 500
  fee_waiver_threshold := 0
  min_salary_req := 15000
  base_reward_rate := 15/1000
  category_multipliers := fun category =>
    match category with
    | .general => none
    | .travel => some (15/1000)
    | .dining => some (15/1000)
    | .online => some (5/100)
    | .utilities => some (15/1000)
  lounge_access := "4 per year (domestic)"
  lounge_visits_per_quarter := 1
  milestone_benefits := []
  fuel_surcharge_waiver := true
  card_type := "Lifetime Free"
  joining_fee := 0
  welcome_benefit := 0
  description := "Lifetime free card with excellent Flipkart rewards"

/-- ICICI Amazon Pay (catalog entry 8). -/
def iciciAmazonPay : Card where
  card_name := "ICICI Amazon Pay"
  bank := "ICICI"
  annual_fee := 500
  fee_waiver_threshold := 0
  min_salary_req := 20000
  base_reward_rate := 1/100
  category_multipliers := fun category =>
    match category with
    | .general => none
    | .travel => some (1/100)
    | .dining => some (1/100)
    | .online => some (5/100)
    | .utilities => some (2/100)
  lounge_access := "None"
  lounge_visits_per_quarter := 0
  milestone_benefits := []
  fuel_surcharge_waiver := true
  card_type := "Co-branded"
  joining_fee := 0
  welcome_benefit := 500
  description := "Best for Amazon shoppers with 5% cashback for Prime members"

/-- ICICI Coral (catalog entry 9). -/
def iciciCoral : Card where
  card_name := "ICICI Coral"
  bank := "ICICI"
  annual_fee := 500
  fee_waiver_threshold := 150000
  min_salary_req := 30000
  base_reward_rate := 1/100
  category_multipliers := fun category =>
    match category with
    | .general => none
    | .travel => some (1/100)
    | .dining => some (2/100)
    | .online => some (1/100)
    | .utilities => some (1/100)
  lounge_access := "1 per quarter (domestic)"
  lounge_visits_per_quarter := 1
  milestone_benefits := []
  fuel_surcharge_waiver := true
  card_type := "Entry Premium"
  joining_fee := 500
  welcome_benefit := 500
  description := "Good starter card with dining benefits and lounge access"

/-- Amex Platinum Travel (catalog entry 10): stated fee 3500 with waiver
threshold 0. -/
def amexPlatinumTravel : Card where
  card_name := "Amex Platinum Travel"
  bank := "Amex"
  annual_fee := 3500
  fee_waiver_threshold := 0
  min_salary_req := 50000
  base_reward_rate := 1/100
  category_multipliers := fun category =>
    match category with
    | .general => none
    | .travel => some (5/100)
    | .dining => some (1/100)
    | .online => some (1/100)
    | .utilities => some (1/100)
  lounge_access := "4 per quarter (domestic)"
  lounge_visits_per_quarter := 4
  milestone_benefits := [(190000, 10000), (400000, 20000)]
  fuel_surcharge_waiver := false
  card_type := "Travel"
  joining_fee := 3500
  welcome_benefit := 5000
  description := "Best for travelers with Amex network and milestone rewards"

/-- RBL Shoprite (catalog entry 11). -/
def rblShoprite : Card where
  card_name := "RBL Shoprite"
  bank := "RBL"
  annual_fee := 0
  fee_waiver_threshold := 0
  min_salary_req := 15000
  base_reward_rate := 125/10000
  category_multipliers := fun category =>
    match category with
    | .general => none
    | .travel => some (125/10000)
    | .dining => some (125/10000)
    | .online => some (25/1000)
    | .utilities => some (125/10000)
  lounge_access := "None"
  lounge_visits_per_quarter := 0
  milestone_benefits := []
  fuel_surcharge_waiver := true
  card_type := "Lifetime Free"
  joining_fee := 0
  welcome_benefit := 0
  description := "Completely free card with decent rewards for everyday spends"

/-- IndusInd Tiger (catalog entry 12). -/
def indusIndTiger : Card where
  card_name := "IndusInd Tiger"
  bank := "IndusInd"
  annual_fee := 0
  fee_waiver_threshold := 0
  min_salary_req := 20000
  base_reward_rate := 175/10000
  category_multipliers := fun category =>
    match category with
    | .general => none
    | .travel => some (175/10000)
    | .dining => some (175/10000)
    | .online => some (35/1000)
    | .utilities => some (175/10000)
  lounge_access := "2 per quarter (domestic)"
  lounge_visits_per_quarter := 2
  milestone_benefits := [(50000, 500), (100000, 1000)]
  fuel_surcharge_waiver := true
  card_type := "Lifetime Free"
  joining_fee := 0
  welcome_benefit := 0
  description := "Great lifetime free card with lounge access and weekend rewards"

/-- `CREDIT_CARDS`: the full catalog, in source order. -/
def CREDIT_CARDS : List Card :=
  [hdfcInfinia, hdfcRegaliaGold, hdfcDinersBlack, sbiCashback, sbiSimplyClick,
   axisAtlas, axisFlipkart, iciciAmazonPay, iciciCoral, amexPlatinumTravel,
   rblShoprite, indusIndTiger]

/-- A profile with every monthly spend zero. -/
def zeroSpends : SpendCategory → ℕ :=
  fun _ => 0

/-- The condition under which the `rank_cards` loop keeps a card: it passes
the lifetime-free filter, passes the lounge filter, and is eligible. -/
def keepCard (monthly_salary : ℕ) (monthly_spends : SpendCategory → ℕ)
    (needs_lounge lifetime_free_only is_first_year : Bool) (card : Card) : Bool :=
  !(lifetime_free_only && decide (0 < card.annual_fee)) &&
    (!(needs_lounge && decide (card.lounge_visits_per_quarter = 0)) &&
      (calculate_net_value card monthly_salary monthly_spends needs_lounge
          is_first_year).is_eligible)

instance : IsTotal CardAnalysis rankRel :=
  ⟨fun a b => le_total b.net_value a.net_value⟩

instance : IsTrans CardAnalysis rankRel :=
  ⟨fun _ _ _ hab hbc => le_trans hbc hab⟩

/-- The breakdown produced for IndusInd Tiger on an all-zero spend profile
(used to instantiate hypotheses of the general theorems). -/
def tigerZeroBreakdown : Breakdown where
  annual_fee := 0
  effective_fee := 0
  fee_waived := false
  total_rewards := 0
  category_rewards := fun _ => 0
  milestone_value := 0
  achieved_milestones := []
  lounge_value := 0
  welcome_value := 0
  gross_benefits := 0
  total_annual_spend := 0

/-- The breakdown produced for RBL Shoprite on an all-zero spend profile. -/
def shopriteZeroBreakdown : Breakdown where
  annual_fee := 0
  effective_fee := 0
  fee_waived := false
  total_rewards := 0
  category_rewards := fun _ => 0
  milestone_value := 0
  achieved_milestones := []
  lounge_value := 0
  welcome_value := 0
  gross_benefits := 0
  total_annual_spend := 0

/-- The breakdown produced for Amex Platinum Travel on an all-zero spend
profile: the waiver threshold is 0 and the stated fee is 3500, so the code
flags the fee as waived. -/
def amexZeroBreakdown : Breakdown where
  annual_fee := 3500
  effective_fee := 0
  fee_waived := true
  total_rewards := 0
  category_rewards := fun _ => 0
  milestone_value := 0
  achieved_milestones := []
  lounge_value := 0
  welcome_value := 0
  gross_benefits := 0
  total_annual_spend := 0

/-! ## Theorems -/

/-- C9: for every card with `fee_waiver_threshold = 0` the effective fee is 0
for every annual spend, regardless of the stated `annual_fee`. -/
theorem lifetime_free_fee_zero (card : Card) (annual_spend : ℕ)
    (h : card.fee_waiver_threshold = 0) :
    calculate_effective_fee card annual_spend = 0 := by
  simp [calculate_effective_fee, h]

/-- Witness for C9: Amex Platinum Travel has waiver threshold 0 and stated
fee 3500, yet its effective fee at an arbitrary concrete spend is 0. -/
theorem lifetime_free_fee_zero_witness :
    amexPlatinumTravel.fee_waiver_threshold = 0 ∧
    0 < amexPlatinumTravel.annual_fee ∧
    calculate_effective_fee amexPlatinumTravel 123456 = 0 :=
  ⟨rfl, by decide, lifetime_free_fee_zero amexPlatinumTravel 123456 rfl⟩

/-- C2: for every card and eligible profile (a populated breakdown), the
returned net value is `total_rewards + milestone_value + lounge_value +
welcome_value − effective_fee`, and the welcome value is the card's
`welcome_benefit` taken as a flat rupee amount exactly in the first year. -/
theorem net_value_formula (card : Card) (monthly_salary : ℕ)
    (monthly_spends : SpendCategory → ℕ) (needs_lounge is_first_year : Bool)
    (b : Breakdown)
    (hb : (calculate_net_value card monthly_salary monthly_spends needs_lounge
        is_first_year).breakdown = some b) :
    (calculate_net_value card monthly_salary monthly_spends needs_lounge
        is_first_year).net_value
      = b.total_rewards + b.milestone_value + b.lounge_value + b.welcome_value
        - (b.effective_fee : ℚ) ∧
    b.welcome_value = (if is_first_year then (card.welcome_benefit : ℚ) else 0) := by
  cases h : check_eligibility card monthly_salary with
  | false => simp [calculate_net_value, h] at hb
  | true =>
    simp only [calculate_net_value, h, Bool.not_true, Bool.false_eq_true,
      if_false, Option.some.injEq] at hb
    subst hb
    refine ⟨?_, rfl⟩
    simp only [calculate_net_value, h, Bool.not_true, Bool.false_eq_true, if_false]

/-- Witness for C2 at IndusInd Tiger with an all-zero spend profile. -/
theorem net_value_formula_witness :
    (calculate_net_value indusIndTiger 20000 zeroSpends false false).net_value
      = tigerZeroBreakdown.total_rewards + tigerZeroBreakdown.milestone_value
        + tigerZeroBreakdown.lounge_value + tigerZeroBreakdown.welcome_value
        - (tigerZeroBreakdown.effective_fee : ℚ) ∧
    tigerZeroBreakdown.welcome_value
      = (if false then (indusIndTiger.welcome_benefit : ℚ) else 0) :=
  net_value_formula indusIndTiger 20000 zeroSpends false false tigerZeroBreakdown
    (by simp [calculate_net_value, check_eligibility, calculate_annual_spend,
      calculate_total_spend, SpendCategory.all, calculate_effective_fee,
      calculate_base_rewards, categoryRewardRate, calculate_milestone_benefits,
      pointValue, POINT_VALUATION, calculate_lounge_value, indusIndTiger,
      zeroSpends, tigerZeroBreakdown, funext_iff])

/-- C7: an ineligible profile (salary below the card's requirement) yields an
immediate return with `is_eligible = false`, zero net value, a reason citing
the required minimum salary, an empty breakdown and no other analysis field;
an eligible profile yields `is_eligible = true` with the breakdown, the
effective reward rate and the recommendation explanation all present. -/
theorem eligibility_gate (card : Card) (monthly_salary : ℕ)
    (monthly_spends : SpendCategory → ℕ) (needs_lounge is_first_year : Bool) :
    (monthly_salary < card.min_salary_req →
      (calculate_net_value card monthly_salary monthly_spends needs_lounge
          is_first_year)
        = { card_name := card.card_name
            bank := card.bank
            card_type := none
            is_eligible := false
            net_value := 0
            effective_reward_rate := none
            reason := some (ineligibleReason card)
            breakdown := none
            why_recommended := none
            lounge_access := none
            description := none }) ∧
    (card.min_salary_req ≤ monthly_salary →
      (calculate_net_value card monthly_salary monthly_spends needs_lounge
          is_first_year).is_eligible = true ∧
      ((calculate_net_value card monthly_salary monthly_spends needs_lounge
          is_first_year).breakdown).isSome = true ∧
      ((calculate_net_value card monthly_salary monthly_spends needs_lounge
          is_first_year).effective_reward_rate).isSome = true ∧
      ((calculate_net_value card monthly_salary monthly_spends needs_lounge
          is_first_year).why_recommended).isSome = true) := by
  constructor
  · intro hlt
    have h : check_eligibility card monthly_salary = false := by
      simp only [check_eligibility, decide_eq_false_iff_not]
      omega
    simp [calculate_net_value, h]
  · intro hle
    have h : check_eligibility card monthly_salary = true := by
      simpa [check_eligibility]
    simp [calculate_net_value, h]

/-- Witness for C7: SBI Cashback (minimum salary 30000) at salaries 10000
and 30000. -/
theorem eligibility_gate_witness :
    (calculate_net_value sbiCashback 10000 zeroSpends false false
      = { card_name := sbiCashback.card_name
          bank := sbiCashback.bank
          card_type := none
          is_eligible := false
          net_value := 0
          effective_reward_rate := none
          reason := some (ineligibleReason sbiCashback)
          breakdown := none
          why_recommended := none
          lounge_access := none
          description := none }) ∧
    ((calculate_net_value sbiCashback 30000 zeroSpends false false).is_eligible
        = true ∧
      ((calculate_net_value sbiCashback 30000 zeroSpends false false).breakdown).isSome
        = true ∧
      ((calculate_net_value sbiCashback 30000 zeroSpends false
          false).effective_reward_rate).isSome = true ∧
      ((calculate_net_value sbiCashback 30000 zeroSpends false
          false).why_recommended).isSome = true) :=
  ⟨(eligibility_gate sbiCashback 10000 zeroSpends false false).1 (by decide),
   (eligibility_gate sbiCashback 30000 zeroSpends false false).2 (by decide)⟩

/-- C1 fails as stated: Axis Flipkart has `fee_waiver_threshold = 0` and a
positive stated `annual_fee` of 500, and for an eligible profile the code
reports `fee_waived = true` (since `effective_fee = 0` and `annual_fee > 0`),
while the claim requires `fee_waived = false` whenever the threshold is 0. -/
theorem fee_waived_zero_threshold_cex :
    ((calculate_net_value axisFlipkart 15000 zeroSpends false false).breakdown.map
        Breakdown.fee_waived) = some true ∧
    axisFlipkart.fee_waiver_threshold = 0 ∧
    0 < axisFlipkart.annual_fee ∧
    (calculate_net_value axisFlipkart 15000 zeroSpends false false).is_eligible
      = true :=
  ⟨by decide, rfl, by decide, by decide⟩

/-- C1 amended: for every card and eligible profile, `fee_waived = true`
exactly when the stated annual fee is positive and the effective fee is 0,
i.e. exactly when `annual_fee > 0` and (`fee_waiver_threshold = 0` or
`total_annual_spend ≥ fee_waiver_threshold`). A card with zero stated fee is
never reported as waived, but a card with waiver threshold 0 and a positive
stated fee is reported as waived, not as inherently free. -/
theorem fee_waived_iff (card : Card) (monthly_salary : ℕ)
    (monthly_spends : SpendCategory → ℕ) (needs_lounge is_first_year : Bool)
    (b : Breakdown)
    (hb : (calculate_net_value card monthly_salary monthly_spends needs_lounge
        is_first_year).breakdown = some b) :
    (b.fee_waived = true ↔ 0 < card.annual_fee ∧ b.effective_fee = 0) ∧
    (b.fee_waived = true ↔
      0 < card.annual_fee ∧
        (card.fee_waiver_threshold = 0 ∨
          card.fee_waiver_threshold ≤ b.total_annual_spend)) := by
  cases h : check_eligibility card monthly_salary with
  | false => simp [calculate_net_value, h] at hb
  | true =>
    simp only [calculate_net_value, h, Bool.not_true, Bool.false_eq_true,
      if_false, Option.some.injEq] at hb
    subst hb
    constructor
    · simp only [Bool.and_eq_true, decide_eq_true_eq]
      tauto
    · simp only [Bool.and_eq_true, decide_eq_true_eq, calculate_effective_fee]
      split_ifs with h1 h2 <;> omega

/-- Witness for the amended C1 at Amex Platinum Travel (stated fee 3500,
waiver threshold 0) with an all-zero spend profile. -/
theorem fee_waived_iff_witness :
    (amexZeroBreakdown.fee_waived = true ↔
      0 < amexPlatinumTravel.annual_fee ∧ amexZeroBreakdown.effective_fee = 0) ∧
    (amexZeroBreakdown.fee_waived = true ↔
      0 < amexPlatinumTravel.annual_fee ∧
        (amexPlatinumTravel.fee_waiver_threshold = 0 ∨
          amexPlatinumTravel.fee_waiver_threshold
            ≤ amexZeroBreakdown.total_annual_spend)) :=
  fee_waived_iff amexPlatinumTravel 50000 zeroSpends false false amexZeroBreakdown
    (by simp [calculate_net_value, check_eligibility, calculate_annual_spend,
      calculate_total_spend, SpendCategory.all, calculate_effective_fee,
      calculate_base_rewards, categoryRewardRate, calculate_milestone_benefits,
      pointValue, POINT_VALUATION, calculate_lounge_value, amexPlatinumTravel,
      zeroSpends, amexZeroBreakdown, funext_iff])

/-- C5: annualization multiplies each monthly spend by 12; the general
category earns the base rate, every other category earns its multiplier when
present and falls back to the base rate (never a silent zero) otherwise; the
reward total is the sum of the per-category rewards over the five
categories. -/
theorem base_rewards_spec (card : Card) (monthly_spends : SpendCategory → ℕ) :
    (∀ category, calculate_annual_spend monthly_spends category
        = monthly_spends category * 12) ∧
    (calculate_base_rewards card (calculate_annual_spend monthly_spends)).2
        SpendCategory.general
      = (calculate_annual_spend monthly_spends SpendCategory.general : ℚ)
          * card.base_reward_rate ∧
    (∀ category, category ≠ SpendCategory.general →
      (calculate_base_rewards card (calculate_annual_spend monthly_spends)).2
          category
        = (calculate_annual_spend monthly_spends category : ℚ)
            * ((card.category_multipliers category).getD card.base_reward_rate)) ∧
    (calculate_base_rewards card (calculate_annual_spend monthly_spends)).1
      = (SpendCategory.all.map
          (calculate_base_rewards card (calculate_annual_spend monthly_spends)).2).sum := by
  refine ⟨fun _ => rfl, ?_, ?_, ?_⟩
  · simp [calculate_base_rewards, categoryRewardRate]
  · intro category hc
    simp [calculate_base_rewards, categoryRewardRate, hc]
  · simp only [calculate_base_rewards, SpendCategory.all, List.foldl_cons,
      List.foldl_nil, List.map_cons, List.map_nil, List.sum_cons, List.sum_nil]
    ring

/-- Witness for C5 at SBI Cashback with a uniform ₹1000 monthly spend,
instantiating the non-general case at the travel category. -/
theorem base_rewards_spec_witness :
    calculate_annual_spend (fun _ => 1000) SpendCategory.travel = 1000 * 12 ∧
    (calculate_base_rewards sbiCashback
        (calculate_annual_spend (fun _ => 1000))).2 SpendCategory.travel
      = (calculate_annual_spend (fun _ => 1000) SpendCategory.travel : ℚ)
          * ((sbiCashback.category_multipliers SpendCategory.travel).getD
              sbiCashback.base_reward_rate) ∧
    (calculate_base_rewards sbiCashback
        (calculate_annual_spend (fun _ => 1000))).1
      = (SpendCategory.all.map
          (calculate_base_rewards sbiCashback
            (calculate_annual_spend (fun _ => 1000))).2).sum :=
  ⟨(base_rewards_spec sbiCashback (fun _ => 1000)).1 SpendCategory.travel,
   (base_rewards_spec sbiCashback (fun _ => 1000)).2.2.1 SpendCategory.travel
     (by decide),
   (base_rewards_spec sbiCashback (fun _ => 1000)).2.2.2⟩

/-- Characterisation of the milestone accumulation loop: starting from any
accumulator it adds the value of, and appends one achievement for, exactly
the qualifying thresholds, in table order. -/
theorem milestone_foldl_eq (pv : ℚ) (spend : ℕ) (l : List (ℕ × ℚ)) :
    ∀ acc : ℚ × List Milestone,
      l.foldl
          (fun acc tp =>
            if tp.1 ≤ spend then
              (acc.1 + tp.2 * pv, acc.2 ++ [⟨tp.1, tp.2, tp.2 * pv⟩])
            else
              acc)
          acc
        = (acc.1
            + ((l.filter (fun tp => decide (tp.1 ≤ spend))).map
                (fun tp => tp.2 * pv)).sum,
           acc.2
            ++ (l.filter (fun tp => decide (tp.1 ≤ spend))).map
                (fun tp => ⟨tp.1, tp.2, tp.2 * pv⟩)) := by
  induction l with
  | nil => intro acc; simp
  | cons hd tl ih =>
    intro acc
    by_cases h : hd.1 ≤ spend
    · simp [h, ih, add_assoc]
    · simp [h, ih]

/-- C6: the milestone value is the sum of `points × point_value(bank)` over
exactly the thresholds not exceeding the annual spend, the achievements list
is the corresponding list with one entry per qualifying threshold (so a
higher achieved threshold never suppresses a lower one), and every
qualifying table entry contributes its achievement. -/
theorem milestone_spec (card : Card) (annual_spend : ℕ) :
    (calculate_milestone_benefits card annual_spend).1
      = ((card.milestone_benefits.filter
            (fun tp => decide (tp.1 ≤ annual_spend))).map
          (fun tp => tp.2 * pointValue card.bank)).sum ∧
    (calculate_milestone_benefits card annual_spend).2
      = (card.milestone_benefits.filter
            (fun tp => decide (tp.1 ≤ annual_spend))).map
          (fun tp => ⟨tp.1, tp.2, tp.2 * pointValue card.bank⟩) ∧
    ∀ tp ∈ card.milestone_benefits, tp.1 ≤ annual_spend →
      (⟨tp.1, tp.2, tp.2 * pointValue card.bank⟩ : Milestone)
        ∈ (calculate_milestone_benefits card annual_spend).2 := by
  have h1 : calculate_milestone_benefits card annual_spend
      = (((card.milestone_benefits.filter
              (fun tp => decide (tp.1 ≤ annual_spend))).map
            (fun tp => tp.2 * pointValue card.bank)).sum,
         (card.milestone_benefits.filter
              (fun tp => decide (tp.1 ≤ annual_spend))).map
            (fun tp => ⟨tp.1, tp.2, tp.2 * pointValue card.bank⟩)) := by
    simpa [calculate_milestone_benefits] using
      milestone_foldl_eq (pointValue card.bank) annual_spend
        card.milestone_benefits (0, [])
  refine ⟨by rw [h1], by rw [h1], ?_⟩
  intro tp htp hle
  rw [h1]
  exact List.mem_map_of_mem _ (List.mem_filter.mpr ⟨htp, by simpa⟩)

/-- Witness for C6: at an annual spend of ₹100,000 IndusInd Tiger achieves
its ₹50,000 milestone (and the claim's membership clause holds for it). -/
theorem milestone_spec_witness :
    (50000, (500 : ℚ)) ∈ indusIndTiger.milestone_benefits ∧
    ((⟨50000, 500, 500 * pointValue indusIndTiger.bank⟩ : Milestone)
      ∈ (calculate_milestone_benefits indusIndTiger 100000).2) :=
  ⟨by simp [indusIndTiger],
   (milestone_spec indusIndTiger 100000).2.2 (50000, 500)
     (by simp [indusIndTiger]) (by omega)⟩

/-- C8: the effective reward rate is total-valued (the division is
special-cased, so no division-by-zero error can be raised): for an eligible
profile it equals `total_rewards / total_annual_spend × 100` when the total
annual spend is positive, and 0 when the total annual spend is 0 — in which
case the reward total is 0 as well and the net value degenerates to
`welcome_value + lounge_value − effective_fee` (using the catalog invariant
that milestone thresholds are positive). -/
theorem reward_rate_safe (card : Card) (monthly_salary : ℕ)
    (monthly_spends : SpendCategory → ℕ) (needs_lounge is_first_year : Bool)
    (b : Breakdown)
    (hb : (calculate_net_value card monthly_salary monthly_spends needs_lounge
        is_first_year).breakdown = some b)
    (hpos : ∀ tp ∈ card.milestone_benefits, 0 < tp.1) :
    (0 < b.total_annual_spend →
      (calculate_net_value card monthly_salary monthly_spends needs_lounge
          is_first_year).effective_reward_rate
        = some (b.total_rewards / (b.total_annual_spend : ℚ) * 100)) ∧
    (b.total_annual_spend = 0 →
      (calculate_net_value card monthly_salary monthly_spends needs_lounge
          is_first_year).effective_reward_rate = some 0 ∧
      b.total_rewards = 0 ∧
      (calculate_net_value card monthly_salary monthly_spends needs_lounge
          is_first_year).net_value
        = b.welcome_value + b.lounge_value - (b.effective_fee : ℚ)) := by
  cases h : check_eligibility card monthly_salary with
  | false => simp [calculate_net_value, h] at hb
  | true =>
    simp only [calculate_net_value, h, Bool.not_true, Bool.false_eq_true,
      if_false, Option.some.injEq] at hb
    subst hb
    constructor
    · intro hT
      simp only [calculate_net_value, h, Bool.not_true, Bool.false_eq_true,
        if_false, Option.some.injEq]
      rw [if_pos hT]
    · intro hT0
      have hT0T : calculate_total_spend (calculate_annual_spend monthly_spends)
          = 0 := hT0
      have hz : ∀ category,
          calculate_annual_spend monthly_spends category = 0 := by
        simp only [calculate_total_spend, calculate_annual_spend,
          SpendCategory.all, List.map_cons, List.map_nil, List.sum_cons,
          List.sum_nil] at hT0T
        intro category
        cases category <;> simp only [calculate_annual_spend] <;> omega
      have hTR : (calculate_base_rewards card
          (calculate_annual_spend monthly_spends)).1 = 0 := by
        simp [calculate_base_rewards, SpendCategory.all, hz]
      have hMV : (calculate_milestone_benefits card
          (calculate_total_spend (calculate_annual_spend monthly_spends))).1
          = 0 := by
        have hfil : card.milestone_benefits.filter
            (fun tp => decide (tp.1
              ≤ calculate_total_spend (calculate_annual_spend monthly_spends)))
            = [] := by
          rw [List.filter_eq_nil_iff]
          intro tp htp
          have := hpos tp htp
          simp only [decide_eq_true_eq]
          omega
        rw [(milestone_spec card _).1, hfil]
        simp
      refine ⟨?_, hTR, ?_⟩
      · simp only [calculate_net_value, h, Bool.not_true, Bool.false_eq_true,
          if_false, Option.some.injEq]
        rw [if_neg (by omega)]
      · simp only [calculate_net_value, h, Bool.not_true, Bool.false_eq_true,
          if_false]
        rw [hTR, hMV]
        ring

/-- Witness for C8 at RBL Shoprite with an all-zero spend profile. -/
theorem reward_rate_safe_witness :
    (calculate_net_value rblShoprite 15000 zeroSpends false
        false).effective_reward_rate = some 0 ∧
    shopriteZeroBreakdown.total_rewards = 0 ∧
    (calculate_net_value rblShoprite 15000 zeroSpends false false).net_value
      = shopriteZeroBreakdown.welcome_value + shopriteZeroBreakdown.lounge_value
        - (shopriteZeroBreakdown.effective_fee : ℚ) :=
  (reward_rate_safe rblShoprite 15000 zeroSpends false false
    shopriteZeroBreakdown
    (by simp [calculate_net_value, check_eligibility, calculate_annual_spend,
      calculate_total_spend, SpendCategory.all, calculate_effective_fee,
      calculate_base_rewards, categoryRewardRate, calculate_milestone_benefits,
      pointValue, POINT_VALUATION, calculate_lounge_value, rblShoprite,
      zeroSpends, shopriteZeroBreakdown, funext_iff])
    (by simp [rblShoprite])).2 rfl

/-- Inserting an element satisfying `p` with `orderedInsert` prepends it to
the `p`-filtered list when every element it is placed after fails `p`. -/
theorem filter_orderedInsert_pos {α : Type} (r : α → α → Prop) [DecidableRel r]
    (p : α → Bool) (a : α) (ha : p a = true)
    (hskip : ∀ b, ¬ r a b → p b = false) :
    ∀ l : List α, (List.orderedInsert r a l).filter p = a :: l.filter p := by
  intro l
  induction l with
  | nil => simp [ha]
  | cons b l ih =>
    by_cases h : r a b
    · simp [List.orderedInsert, h, ha]
    · have hb := hskip b h
      simp [List.orderedInsert, h, hb, ih]

/-- Inserting an element failing `p` with `orderedInsert` leaves the
`p`-filtered list unchanged. -/
theorem filter_orderedInsert_neg {α : Type} (r : α → α → Prop) [DecidableRel r]
    (p : α → Bool) (a : α) (ha : p a = false) :
    ∀ l : List α, (List.orderedInsert r a l).filter p = l.filter p := by
  intro l
  induction l with
  | nil => simp [ha]
  | cons b l ih =>
    by_cases h : r a b
    · simp [List.orderedInsert, h, ha]
    · simp [List.orderedInsert, h, List.filter_cons, ih]

/-- Stability of the descending insertion sort: restricted to any single net
value, sorting is the identity, so equal-valued entries keep their relative
order. -/
theorem filter_insertionSort_netValue (v : ℚ) :
    ∀ l : List CardAnalysis,
      ((l.insertionSort rankRel).filter fun x => decide (x.net_value = v))
        = l.filter fun x => decide (x.net_value = v) := by
  intro l
  induction l with
  | nil => rfl
  | cons a l ih =>
    show ((List.orderedInsert rankRel a (l.insertionSort rankRel)).filter _) = _
    by_cases ha : a.net_value = v
    · have hskip : ∀ b, ¬ rankRel a b →
          (decide (b.net_value = v)) = false := by
        intro b hb
        simp only [decide_eq_false_iff_not]
        intro hbv
        exact hb (le_of_eq (hbv.trans ha.symm))
      rw [filter_orderedInsert_pos rankRel _ a (by simp [ha]) hskip, ih]
      simp [ha]
    · rw [filter_orderedInsert_neg rankRel _ a (by simp [ha]), ih]
      simp [ha]

/-- C3: the ranking output is sorted by net value in descending order
(`rankRel`), and entries of equal net value appear in the same relative
order as in the pre-sort pass over the input sequence (which visits the
cards in input order), i.e. Python's stable `sort(reverse=True)`. -/
theorem rank_cards_sorted_stable (cards : List Card) (monthly_salary : ℕ)
    (monthly_spends : SpendCategory → ℕ)
    (needs_lounge lifetime_free_only is_first_year : Bool) :
    List.Sorted rankRel
        (rank_cards cards monthly_salary monthly_spends needs_lounge
          lifetime_free_only is_first_year) ∧
    ∀ v : ℚ,
      ((rank_cards cards monthly_salary monthly_spends needs_lounge
            lifetime_free_only is_first_year).filter
          fun result => decide (result.net_value = v))
        = ((cards.filterMap
              (rankCandidate monthly_salary monthly_spends needs_lounge
                lifetime_free_only is_first_year)).filter
            fun result => decide (result.net_value = v)) :=
  ⟨List.sorted_insertionSort rankRel _,
   fun v => filter_insertionSort_netValue v _⟩

/-- A filterMap whose function is a guarded `some` is a filter followed by a
map. -/
theorem filterMap_ite_eq_filter_map {α β : Type} (p : α → Bool) (f : α → β) :
    ∀ l : List α,
      (l.filterMap fun x => if p x then some (f x) else none)
        = (l.filter p).map f := by
  intro l
  induction l with
  | nil => rfl
  | cons a l ih =>
    by_cases h : p a = true
    · simp [h, ih]
    · simp [h, ih]

/-- The loop body of `rank_cards` keeps a card exactly when `keepCard`
holds, and then contributes that card's analysis. -/
theorem rankCandidate_eq_keep (monthly_salary : ℕ)
    (monthly_spends : SpendCategory → ℕ)
    (needs_lounge lifetime_free_only is_first_year : Bool) (card : Card) :
    rankCandidate monthly_salary monthly_spends needs_lounge lifetime_free_only
        is_first_year card
      = if keepCard monthly_salary monthly_spends needs_lounge
            lifetime_free_only is_first_year card then
          some (calculate_net_value card monthly_salary monthly_spends
            needs_lounge is_first_year)
        else
          none := by
  simp only [rankCandidate, keepCard]
  by_cases h1 : (lifetime_free_only && decide (0 < card.annual_fee)) = true
  · simp [h1]
  · by_cases h2 : (needs_lounge && decide (card.lounge_visits_per_quarter = 0))
        = true
    · simp [h1, h2]
    · by_cases h3 : (calculate_net_value card monthly_salary monthly_spends
          needs_lounge is_first_year).is_eligible = true
      · simp [h1, h2, h3]
      · simp [h1, h2, h3]

/-- C10: the ranking output is a permutation of one analysis per input card
that passes both optional filters and is eligible — no card contributes more
than one entry, no entry is invented, and the output length (the number of
kept cards) never exceeds the input length. -/
theorem rank_cards_entries (cards : List Card) (monthly_salary : ℕ)
    (monthly_spends : SpendCategory → ℕ)
    (needs_lounge lifetime_free_only is_first_year : Bool) :
    List.Perm
        (rank_cards cards monthly_salary monthly_spends needs_lounge
          lifetime_free_only is_first_year)
        ((cards.filter
            (keepCard monthly_salary monthly_spends needs_lounge
              lifetime_free_only is_first_year)).map
          (fun card => calculate_net_value card monthly_salary monthly_spends
            needs_lounge is_first_year)) ∧
    (rank_cards cards monthly_salary monthly_spends needs_lounge
        lifetime_free_only is_first_year).length
      = (cards.filter
          (keepCard monthly_salary monthly_spends needs_lounge
            lifetime_free_only is_first_year)).length ∧
    (rank_cards cards monthly_salary monthly_spends needs_lounge
        lifetime_free_only is_first_year).length ≤ cards.length := by
  have hfun : rankCandidate monthly_salary monthly_spends needs_lounge
      lifetime_free_only is_first_year
      = fun card =>
          if keepCard monthly_salary monthly_spends needs_lounge
              lifetime_free_only is_first_year card then
            some (calculate_net_value card monthly_salary monthly_spends
              needs_lounge is_first_year)
          else
            none :=
    funext (rankCandidate_eq_keep monthly_salary monthly_spends needs_lounge
      lifetime_free_only is_first_year)
  have hfm : cards.filterMap
      (rankCandidate monthly_salary monthly_spends needs_lounge
        lifetime_free_only is_first_year)
      = (cards.filter
          (keepCard monthly_salary monthly_spends needs_lounge
            lifetime_free_only is_first_year)).map
        (fun card => calculate_net_value card monthly_salary monthly_spends
          needs_lounge is_first_year) := by
    rw [hfun, filterMap_ite_eq_filter_map]
  have hperm0 : List.Perm
      (rank_cards cards monthly_salary monthly_spends needs_lounge
        lifetime_free_only is_first_year)
      (cards.filterMap
        (rankCandidate monthly_salary monthly_spends needs_lounge
          lifetime_free_only is_first_year)) :=
    List.perm_insertionSort rankRel _
  have hperm : List.Perm
      (rank_cards cards monthly_salary monthly_spends needs_lounge
        lifetime_free_only is_first_year)
      ((cards.filter
          (keepCard monthly_salary monthly_spends needs_lounge
            lifetime_free_only is_first_year)).map
        (fun card => calculate_net_value card monthly_salary monthly_spends
          needs_lounge is_first_year)) := hfm ▸ hperm0
  have hlen : (rank_cards cards monthly_salary monthly_spends needs_lounge
      lifetime_free_only is_first_year).length
      = (cards.filter
          (keepCard monthly_salary monthly_spends needs_lounge
            lifetime_free_only is_first_year)).length := by
    rw [hperm.length_eq, List.length_map]
  refine ⟨hperm, hlen, ?_⟩
  rw [hlen]
  exact List.length_filter_le _ _

/-- C4: every entry of the ranking output is eligible and originates from an
input card that passed the active filters: a card with `annual_fee = 0` when
the lifetime-free filter is set, and with a positive quarterly lounge count
when the lounge filter is set. -/
theorem rank_cards_filter_sound (cards : List Card) (monthly_salary : ℕ)
    (monthly_spends : SpendCategory → ℕ)
    (needs_lounge lifetime_free_only is_first_year : Bool) :
    ∀ result ∈ rank_cards cards monthly_salary monthly_spends needs_lounge
        lifetime_free_only is_first_year,
      result.is_eligible = true ∧
      ∃ card ∈ cards,
        result = calculate_net_value card monthly_salary monthly_spends
          needs_lounge is_first_year ∧
        (lifetime_free_only = true → card.annual_fee = 0) ∧
        (needs_lounge = true → 0 < card.lounge_visits_per_quarter) := by
  intro result hres
  simp only [rank_cards, List.mem_insertionSort] at hres
  obtain ⟨card, hcard, hc⟩ := List.mem_filterMap.mp hres
  rw [rankCandidate_eq_keep] at hc
  by_cases hk : keepCard monthly_salary monthly_spends needs_lounge
      lifetime_free_only is_first_year card = true
  · rw [if_pos hk] at hc
    have hres_eq : result = calculate_net_value card monthly_salary
        monthly_spends needs_lounge is_first_year := (Option.some.inj hc).symm
    simp only [keepCard, Bool.and_eq_true, Bool.not_eq_true',
      Bool.and_eq_false_iff, decide_eq_false_iff_not, decide_eq_true_eq] at hk
    refine ⟨by rw [hres_eq]; exact hk.2.2, card, hcard, hres_eq, ?_, ?_⟩
    · intro hltf
      rcases hk.1 with h | h
      · exact absurd hltf (by simp [h])
      · omega
    · intro hnl
      rcases hk.2.1 with h | h
      · exact absurd hnl (by simp [h])
      · omega
  · rw [if_neg hk] at hc
    exact absurd hc (by simp)

/-- Witness for C4: with both filters active IndusInd Tiger (fee 0, lounge
visits 2) survives and its analysis is an output entry. -/
theorem rank_cards_filter_sound_witness :
    (calculate_net_value indusIndTiger 20000 zeroSpends true false).is_eligible
      = true ∧
    ∃ card ∈ [indusIndTiger],
      calculate_net_value indusIndTiger 20000 zeroSpends true false
        = calculate_net_value card 20000 zeroSpends true false ∧
      (true = true → card.annual_fee = 0) ∧
      (true = true → 0 < card.lounge_visits_per_quarter) :=
  rank_cards_filter_sound [indusIndTiger] 20000 zeroSpends true true false
    (calculate_net_value indusIndTiger 20000 zeroSpends true false)
    (by simp [rank_cards, rankCandidate, List.insertionSort, List.orderedInsert,
      calculate_net_value, check_eligibility, indusIndTiger])
